import Mathlib

/-!
Shallow embedding of two NuttX source files:
net/sixlowpan/sixlowpan_tcpsend.c and mm/kmm_heap/kmm_heapmember.c.

External collaborators (the device registry, the neighbor cache, the
address translator and the frame dispatcher, and the generic heap
membership predicate) are passed in as parameters, and each run records
how often it invoked each collaborator, so that theorems can speak about
which collaborators a call reached.
-/

/-- Modelled from the spec: IPv6 addresses are opaque values in this slice;
only equality and the address-translator embedding matter here. -/
abbrev Ipv6Addr := List Nat

/-- Modelled from the spec: the short-form link-layer (Rime) address that the
address translator derives from an IPv6 address. -/
abbrev RimeAddr := List Nat

/-- Modelled from the spec: errno value for a bad socket handle (errno.h is
outside src; only the identity of the code matters to the claims). -/
def EBADF : Int := 9

/-- Modelled from the spec: errno value for a socket that is not connected. -/
def ENOTCONN : Int := 107

/-- Modelled from the spec: errno value for a wrong protocol family. -/
def EPROTOTYPE : Int := 91

/-- Modelled from the spec: errno value for an unreachable network. -/
def ENETUNREACH : Int := 101

/-- Modelled from the spec: the stream socket type tag (sys/socket.h is
outside src). -/
def SOCK_STREAM : Nat := 1

/-- Modelled from the spec: the IPv6 protocol family tag. -/
def PF_INET6 : Nat := 10

/-- Modelled from the spec: the link-layer type tag for IEEE 802.15.4
devices (net_lltype enumeration is outside src; only equality matters). -/
def NET_LL_IEEE802154 : Nat := 3

/-- Modelled from the spec: the next-protocol value declaring TCP in an IPv6
header. -/
def IP_PROTO_TCP : Nat := 6

/-- Modelled from the spec: length in bytes of an IPv6 header. -/
def IPv6_HDRLEN : Nat := 40

/-- Modelled from the spec: length in bytes of a TCP header. -/
def TCP_HDRLEN : Nat := 20

/-- One more than the largest size_t value: size_t arithmetic in the source
wraps modulo this (2 to the power 64). -/
def SIZE_T_MOD : Nat := 18446744073709551616

/-- Modelled from the spec: the per-socket send-state flag, idle or
sending. -/
inductive SendState where
  | idle
  | sending
deriving DecidableEq

/-- Modelled from the spec: the socket flag word, holding the connected bit
read by the connectedness test and the send-state field written by the
state-setting operation (socket/socket.h is outside src). -/
structure SockFlags where
  connected : Bool
  sendState : SendState
deriving DecidableEq

/-- Modelled from the spec: the state-setting operation on the flag word; it
replaces the send-state field and keeps the other bits. -/
def setSendState (f : SockFlags) (s : SendState) : SockFlags :=
  { f with sendState := s }

/-- The TCP connection structure, reduced to the fields this slice reads:
the address family tag and the local and remote IPv6 addresses. -/
structure TcpConn where
  domain : Nat
  laddr : Ipv6Addr
  raddr : Ipv6Addr
deriving DecidableEq

/-- The socket structure, reduced to the fields this slice reads: reference
count, socket type, flag word, connection, and send timeout option. -/
structure Socket where
  s_crefs : Int
  s_type : Nat
  s_flags : SockFlags
  s_conn : TcpConn
  s_sndtimeo : Nat
deriving DecidableEq

/-- Modelled from the spec: the view of the head of a device transmit buffer
as an IPv6 header, reduced to the two fields the flush path reads, the
next-protocol field and the destination address. -/
structure Ipv6Hdr where
  proto : Nat
  destipaddr : Ipv6Addr
deriving DecidableEq

/-- The network device record, reduced to the fields this slice reads: the
link-layer type tag, the transmit buffer (its header view), and the
valid-length field d_len. -/
structure NetDevice where
  d_lltype : Nat
  d_buf : Ipv6Hdr
  d_len : Nat
deriving DecidableEq

/-- A run that dereferences a NULL pointer has no defined result; the
embedding reports it as this fault instead of returning. -/
inductive Fault where
  | nullDeref
deriving DecidableEq

/-- The compile-time configuration switches appearing in the embedded
preprocessor conditionals. -/
structure Config where
  net_ipv4 : Bool
  multinic : Bool
  multilink : Bool
  icmpv6_neighbor : Bool
  sockopts : Bool

/-- The external collaborators of the socket-initiated send path:
findDevice2 and findDevice1 are the two configuration-dependent forms of
netdev_findby_ipv6addr, icmpv6Lookup is icmpv6_neighbor, rimefromip is
sixlowpan_rimefromip, and sixlowpanSend is sixlowpan_send taking the
device, the byte count, the destination address and the timeout. The IPv6
and TCP header argument of sixlowpan_send is uninitialized stack memory in
the source (the line 164 warning marks the missing logic) and carries no
information, so it is not modelled as an argument. -/
structure SendEnv where
  findDevice2 : Ipv6Addr → Ipv6Addr → Option NetDevice
  findDevice1 : Ipv6Addr → Option NetDevice
  icmpv6Lookup : Ipv6Addr → Int
  rimefromip : Ipv6Addr → RimeAddr
  sixlowpanSend : NetDevice → Nat → RimeAddr → Nat → Int

/-- The observable outcome of one call to the socket-initiated send path:
the returned value, the socket as left behind, how often each collaborator
was invoked, the send-state flag at the moment of dispatch (none when no
dispatch happened), and the routed device (none when routing was not
completed). -/
structure SendResult where
  ret : Int
  sock : Socket
  devLookups : Nat
  neighborLookups : Nat
  dispatchCalls : Nat
  flagAtDispatch : Option SendState
  routedDev : Option NetDevice
deriving DecidableEq

/-- Embedding of psock_6lowpan_tcp_send from
src/net/sixlowpan/sixlowpan_tcpsend.c. The buffer content is irrelevant to
every observable of this slice, so only the byte count len is passed. Line
numbers refer to the source file. -/
def psock_6lowpan_tcp_send (cfg : Config) (env : SendEnv)
    (psock : Option Socket) (len : Nat) : Except Fault SendResult :=
  match psock with
  | none =>
      -- line 97: psock != NULL is false, so the right operand
      -- psock->s_crefs <= 0 is evaluated and dereferences NULL.
      Except.error Fault.nullDeref
  | some psock =>
      -- line 97: if (psock != NULL || psock->s_crefs <= 0); in this arm
      -- psock is non-NULL, so the left operand is True.
      if True ∨ psock.s_crefs ≤ 0 then
        Except.ok ({ ret := -EBADF, sock := psock, devLookups := 0,
                     neighborLookups := 0, dispatchCalls := 0,
                     flagAtDispatch := none, routedDev := none })
      -- line 105: if (psock->s_type != SOCK_STREAM ||
      --              !_SS_ISCONNECTED(psock->s_flags))
      else if psock.s_type ≠ SOCK_STREAM ∨ psock.s_flags.connected = false then
        Except.ok ({ ret := -ENOTCONN, sock := psock, devLookups := 0,
                     neighborLookups := 0, dispatchCalls := 0,
                     flagAtDispatch := none, routedDev := none })
      else
        -- line 113
        let conn := psock.s_conn
        -- lines 116..124: compiled only under CONFIG_NET_IPv4
        if cfg.net_ipv4 = true ∧ conn.domain ≠ PF_INET6 then
          Except.ok ({ ret := -EPROTOTYPE, sock := psock, devLookups := 0,
                       neighborLookups := 0, dispatchCalls := 0,
                       flagAtDispatch := none, routedDev := none })
        else
          -- lines 128..150: device lookup, form depending on MULTINIC
          let found :=
            if cfg.multinic = true then env.findDevice2 conn.laddr conn.raddr
            else env.findDevice1 conn.raddr
          match found with
          | none =>
              Except.ok ({ ret := -ENETUNREACH, sock := psock,
                           devLookups := 1, neighborLookups := 0,
                           dispatchCalls := 0, flagAtDispatch := none,
                           routedDev := none })
          | some dev =>
              -- the MULTILINK form also requires the 802.15.4 type
              if cfg.multilink = true ∧ dev.d_lltype ≠ NET_LL_IEEE802154 then
                Except.ok ({ ret := -ENETUNREACH, sock := psock,
                             devLookups := 1, neighborLookups := 0,
                             dispatchCalls := 0, flagAtDispatch := none,
                             routedDev := none })
              -- lines 152..161: compiled only under CONFIG_NET_ICMPv6_NEIGHBOR
              else if cfg.icmpv6_neighbor = true ∧
                  env.icmpv6Lookup conn.raddr < 0 then
                Except.ok ({ ret := -ENETUNREACH, sock := psock,
                             devLookups := 1, neighborLookups := 1,
                             dispatchCalls := 0, flagAtDispatch := none,
                             routedDev := none })
              else
                -- line 168: set the socket state to sending
                let flags1 := setSendState psock.s_flags SendState.sending
                -- line 174
                let destmac := env.rimefromip conn.raddr
                -- lines 180..184
                let timeout := if cfg.sockopts = true then psock.s_sndtimeo else 0
                -- line 186: the dispatcher result is returned as is
                let ret := env.sixlowpanSend dev len destmac timeout
                -- line 195: set the socket state back to idle
                let flags2 := setSendState flags1 SendState.idle
                Except.ok ({ ret := ret,
                             sock := { psock with s_flags := flags2 },
                             devLookups := 1,
                             neighborLookups :=
                               if cfg.icmpv6_neighbor = true then 1 else 0,
                             dispatchCalls := 1,
                             flagAtDispatch := some flags1.sendState,
                             routedDev := some dev })

/-- The external collaborators of the state-machine-initiated send path:
rimefromip is sixlowpan_rimefromip and queueFrames is
sixlowpan_queue_frames taking the device, the payload length and the
destination address; its result is discarded by the source. -/
structure FlushEnv where
  rimefromip : Ipv6Addr → RimeAddr
  queueFrames : NetDevice → Nat → RimeAddr → Int

/-- The observable outcome of one call to the state-machine-initiated send
path: the device as left behind, the number of warnings logged, the number
of dispatcher invocations, and the payload length and destination address
handed to the dispatcher (none when no dispatch happened). -/
structure FlushResult where
  dev : NetDevice
  warnings : Nat
  dispatchCalls : Nat
  dispatchPayloadLen : Option Nat
  dispatchDest : Option RimeAddr
deriving DecidableEq

/-- Embedding of sixlowpan_tcp_send from
src/net/sixlowpan/sixlowpan_tcpsend.c. Line numbers refer to the source
file. The payload length handed to the dispatcher is the size_t value of
d_len - hdrlen, which wraps modulo SIZE_T_MOD when d_len < hdrlen. -/
def sixlowpan_tcp_send (env : FlushEnv) (dev : Option NetDevice) :
    Except Fault FlushResult :=
  match dev with
  | none =>
      -- line 230 guards only the body; line 278 then writes d_len through
      -- the NULL pointer.
      Except.error Fault.nullDeref
  | some dev =>
      let r :=
        -- line 230: if (dev != NULL && dev->d_len > 0); dev is non-NULL here
        if 0 < dev.d_len then
          let ipv6hdr := dev.d_buf
          -- line 245: if (ipv6hdr->proto != IP_PROTO_TCP) warn and skip
          if ipv6hdr.proto ≠ IP_PROTO_TCP then
            ({ dev := dev, warnings := 1, dispatchCalls := 0,
               dispatchPayloadLen := none, dispatchDest := none } : FlushResult)
          else
            -- line 253
            let hdrlen := IPv6_HDRLEN + TCP_HDRLEN
            -- line 254: if (hdrlen < dev->d_len) warn "Packet to small"
            if hdrlen < dev.d_len then
              ({ dev := dev, warnings := 1, dispatchCalls := 0,
                 dispatchPayloadLen := none, dispatchDest := none } : FlushResult)
            else
              -- line 267
              let destmac := env.rimefromip ipv6hdr.destipaddr
              -- line 271: payload length is dev->d_len - hdrlen as size_t
              let payloadLen := (dev.d_len + SIZE_T_MOD - hdrlen) % SIZE_T_MOD
              let _ := env.queueFrames dev payloadLen destmac
              ({ dev := dev, warnings := 0, dispatchCalls := 1,
                 dispatchPayloadLen := some payloadLen,
                 dispatchDest := some destmac } : FlushResult)
        else
          ({ dev := dev, warnings := 0, dispatchCalls := 0,
             dispatchPayloadLen := none, dispatchDest := none } : FlushResult)
      -- line 278: dev->d_len = 0, on every path through the body
      Except.ok ({ r with dev := { r.dev with d_len := 0 } })

/-- Embedding of kmm_heapmember from src/mm/kmm_heap/kmm_heapmember.c. The
generic membership predicate mm_heapmember and the kernel heap g_kmmheap
live outside this slice (mm/mm_heap and the kmm globals), so they are
taken as parameters. -/
def kmm_heapmember (Heap : Type) (mm_heapmember : Heap → Nat → Bool)
    (g_kmmheap : Heap) (mem : Nat) : Bool :=
  mm_heapmember g_kmmheap mem

/-- A remote and a local IPv6 address used by the concrete runs below. -/
def addrRemote : Ipv6Addr := [1]

/-- The local address of the concrete connection. -/
def addrLocal : Ipv6Addr := [2]

/-- A concrete connection in the IPv6 family. -/
def connW : TcpConn := { domain := PF_INET6, laddr := addrLocal, raddr := addrRemote }

/-- A transmit-buffer header declaring TCP, addressed to the remote peer. -/
def hdrTcp : Ipv6Hdr := { proto := IP_PROTO_TCP, destipaddr := addrRemote }

/-- A concrete IEEE 802.15.4 device with an empty transmit buffer. -/
def devIeee : NetDevice := { d_lltype := NET_LL_IEEE802154, d_buf := hdrTcp, d_len := 0 }

/-- A concrete device holding a TCP datagram of 100 bytes, 40 of them
payload beyond the 60 header bytes. -/
def devFull : NetDevice := { d_lltype := NET_LL_IEEE802154, d_buf := hdrTcp, d_len := 100 }

/-- A concrete device holding exactly the 60 header bytes and no payload. -/
def devHdrOnly : NetDevice := { d_lltype := NET_LL_IEEE802154, d_buf := hdrTcp, d_len := 60 }

/-- A concrete device whose transmit buffer is drained (d_len = 0). -/
def devEmpty : NetDevice := { d_lltype := NET_LL_IEEE802154, d_buf := hdrTcp, d_len := 0 }

/-- A concrete, fully valid socket: referenced once, stream type, connected,
idle, with a configured send timeout. -/
def sockConnected : Socket :=
  { s_crefs := 1, s_type := SOCK_STREAM,
    s_flags := { connected := true, sendState := SendState.idle },
    s_conn := connW, s_sndtimeo := 5 }

/-- A concrete referenced stream socket that is not connected. -/
def sockUnconnected : Socket :=
  { s_crefs := 1, s_type := SOCK_STREAM,
    s_flags := { connected := false, sendState := SendState.idle },
    s_conn := connW, s_sndtimeo := 5 }

/-- The configuration with every embedded switch compiled in. -/
def cfgAll : Config :=
  { net_ipv4 := true, multinic := true, multilink := true,
    icmpv6_neighbor := true, sockopts := true }

/-- A concrete environment in which the peer is routable: both lookup forms
find the 802.15.4 device, the neighbor lookup succeeds, and the dispatcher
reports 42 bytes sent. -/
def envReachable : SendEnv :=
  { findDevice2 := fun _ _ => some devIeee,
    findDevice1 := fun _ => some devIeee,
    icmpv6Lookup := fun _ => 0,
    rimefromip := fun a => a,
    sixlowpanSend := fun _ _ _ _ => 42 }

/-- A concrete flush environment: the identity address translation and a
dispatcher that reports success. -/
def envFlush : FlushEnv :=
  { rimefromip := fun a => a, queueFrames := fun _ _ _ => 0 }

/-- Claim C1 (code defect): the validity check on line 97 reads
psock != NULL where the surrounding assertion and comment require
psock == NULL, so a fully valid socket (non-null, reference count 1,
stream, connected) is rejected with -EBADF, and a NULL socket is not
rejected with -EBADF but dereferenced. -/
theorem psock_send_invalid_handle_bug :
    0 < sockConnected.s_crefs ∧
    (∃ r, psock_6lowpan_tcp_send cfgAll envReachable (some sockConnected) 40 =
        Except.ok r ∧ r.ret = -EBADF) ∧
    psock_6lowpan_tcp_send cfgAll envReachable none 40 =
      Except.error Fault.nullDeref :=
  ⟨by decide, ⟨_, rfl, rfl⟩, rfl⟩

/-- Claim C2: for every non-null socket with positive reference count, the
call returns -EBADF immediately: no device lookup, no dispatcher call, and
the socket (its send-state flag included) is left unchanged. -/
theorem psock_send_always_ebadf (cfg : Config) (env : SendEnv)
    (psock : Socket) (len : Nat) (_h : 0 < psock.s_crefs) :
    ∃ r, psock_6lowpan_tcp_send cfg env (some psock) len = Except.ok r ∧
      r.ret = -EBADF ∧ r.devLookups = 0 ∧ r.dispatchCalls = 0 ∧
      r.sock = psock :=
  ⟨_, rfl, rfl, rfl, rfl, rfl⟩

/-- Witness for C2 at the concrete valid socket. -/
theorem psock_send_always_ebadf_witness :
    ∃ r, psock_6lowpan_tcp_send cfgAll envReachable (some sockConnected) 7 =
        Except.ok r ∧
      r.ret = -EBADF ∧ r.devLookups = 0 ∧ r.dispatchCalls = 0 ∧
      r.sock = sockConnected :=
  psock_send_always_ebadf cfgAll envReachable sockConnected 7 (by decide)

/-- Claim C3 (code defect): on a TCP-declaring buffer of 100 valid bytes,
at least the 60 combined header bytes, the claim requires a dispatch; the
inverted comparison on line 254 instead logs the packet-too-small warning
and skips the dispatcher, contradicting the text of its own warning. -/
theorem flush_size_check_inverted :
    (IPv6_HDRLEN + TCP_HDRLEN ≤ devFull.d_len ∧
     devFull.d_buf.proto = IP_PROTO_TCP) ∧
    ∃ r, sixlowpan_tcp_send envFlush (some devFull) = Except.ok r ∧
      r.warnings = 1 ∧ r.dispatchCalls = 0 :=
  ⟨⟨by decide, rfl⟩, ⟨_, rfl, rfl, rfl⟩⟩

/-- Claim C4 (code defect): a referenced stream socket that is not connected
should get -ENOTCONN, but the line 97 defect returns -EBADF first, so the
connectedness check is unreachable. -/
theorem psock_send_unconnected_bug :
    sockUnconnected.s_flags.connected = false ∧
    ∃ r, psock_6lowpan_tcp_send cfgAll envReachable (some sockUnconnected) 40 =
        Except.ok r ∧
      r.ret = -EBADF ∧ r.ret ≠ -ENOTCONN ∧ r.devLookups = 0 ∧
      r.dispatchCalls = 0 :=
  ⟨rfl, ⟨_, rfl, rfl, by decide, rfl, rfl⟩⟩

/-- Claim C5: a call entered with the send-state flag idle returns with the
flag idle, and if the dispatcher is invoked then the flag at that moment
is sending and routing has completed. In the code as written every
non-null socket returns before the flag is touched, so the flag is never
mutated and the dispatcher clause holds vacuously. -/
theorem psock_send_flag_idle_invariant (cfg : Config) (env : SendEnv)
    (psock : Socket) (len : Nat)
    (h : psock.s_flags.sendState = SendState.idle) :
    ∃ r, psock_6lowpan_tcp_send cfg env (some psock) len = Except.ok r ∧
      r.sock.s_flags.sendState = SendState.idle ∧
      (r.dispatchCalls ≠ 0 →
        r.flagAtDispatch = some SendState.sending ∧ r.routedDev ≠ none) :=
  ⟨_, rfl, h, fun hc => absurd rfl hc⟩

/-- Witness for C5 at the concrete valid socket, which starts idle. -/
theorem psock_send_flag_idle_invariant_witness :
    ∃ r, psock_6lowpan_tcp_send cfgAll envReachable (some sockConnected) 12 =
        Except.ok r ∧
      r.sock.s_flags.sendState = SendState.idle ∧
      (r.dispatchCalls ≠ 0 →
        r.flagAtDispatch = some SendState.sending ∧ r.routedDev ≠ none) :=
  psock_send_flag_idle_invariant cfgAll envReachable sockConnected 12 rfl

/-- Claim C6: for every non-null device with a positive valid length, the
flush path leaves d_len equal to zero, whatever branch the body takes and
whatever the dispatcher returns. -/
theorem flush_resets_d_len (env : FlushEnv) (dev : NetDevice)
    (_h : 0 < dev.d_len) :
    ∃ r, sixlowpan_tcp_send env (some dev) = Except.ok r ∧ r.dev.d_len = 0 :=
  ⟨_, rfl, rfl⟩

/-- Witness for C6 at the concrete loaded device. -/
theorem flush_resets_d_len_witness :
    ∃ r, sixlowpan_tcp_send envFlush (some devFull) = Except.ok r ∧
      r.dev.d_len = 0 :=
  flush_resets_d_len envFlush devFull (by decide)

/-- Claim C7 (code defect): with a fully valid, routable socket the claim
requires the dispatcher result (here 42) to be returned verbatim; the
line 97 defect returns -EBADF before the dispatcher is ever invoked, so no
call ever reaches the dispatcher. -/
theorem psock_send_dispatcher_unreachable_bug :
    ∃ r, psock_6lowpan_tcp_send cfgAll envReachable (some sockConnected) 40 =
        Except.ok r ∧
      r.dispatchCalls = 0 ∧ r.routedDev = none ∧
      r.ret ≠ envReachable.sixlowpanSend devIeee 40
        (envReachable.rimefromip sockConnected.s_conn.raddr)
        sockConnected.s_sndtimeo :=
  ⟨_, rfl, rfl, rfl, by decide⟩

/-- Claim C8: flushing a device whose valid length is already zero performs
no dispatch, logs no warning, and leaves the device exactly as it was. -/
theorem flush_noop_when_empty (env : FlushEnv) (dev : NetDevice)
    (h : dev.d_len = 0) :
    sixlowpan_tcp_send env (some dev) =
      Except.ok ({ dev := dev, warnings := 0, dispatchCalls := 0,
                   dispatchPayloadLen := none, dispatchDest := none }) := by
  obtain ⟨l, b, n⟩ := dev
  have hn : n = 0 := h
  subst hn
  rfl

/-- Witness for C8 at the concrete drained device. -/
theorem flush_noop_when_empty_witness :
    sixlowpan_tcp_send envFlush (some devEmpty) =
      Except.ok ({ dev := devEmpty, warnings := 0, dispatchCalls := 0,
                   dispatchPayloadLen := none, dispatchDest := none }) :=
  flush_noop_when_empty envFlush devEmpty rfl

set_option maxRecDepth 4000 in
/-- Claim C9: when the buffer declares TCP and holds exactly the combined
header length, the flush path does not skip: it invokes the dispatcher
once with payload length zero and the link address derived from the
destination of the header, logs no warning, and drains the buffer. -/
theorem flush_zero_payload_dispatch (env : FlushEnv) (dev : NetDevice)
    (h1 : dev.d_buf.proto = IP_PROTO_TCP)
    (h2 : dev.d_len = IPv6_HDRLEN + TCP_HDRLEN) :
    ∃ r, sixlowpan_tcp_send env (some dev) = Except.ok r ∧
      r.dispatchCalls = 1 ∧ r.dispatchPayloadLen = some 0 ∧
      r.dispatchDest = some (env.rimefromip dev.d_buf.destipaddr) ∧
      r.warnings = 0 ∧ r.dev.d_len = 0 := by
  obtain ⟨l, b, n⟩ := dev
  obtain ⟨p, dst⟩ := b
  have hp : p = IP_PROTO_TCP := h1
  have hn : n = IPv6_HDRLEN + TCP_HDRLEN := h2
  subst hp
  subst hn
  refine ⟨_, rfl, rfl, ?_, rfl, rfl, rfl⟩
  show some ((IPv6_HDRLEN + TCP_HDRLEN + SIZE_T_MOD -
      (IPv6_HDRLEN + TCP_HDRLEN)) % SIZE_T_MOD) = some 0
  rw [Nat.add_sub_cancel_left, Nat.mod_self]

/-- Witness for C9 at the concrete header-only device. -/
theorem flush_zero_payload_dispatch_witness :
    ∃ r, sixlowpan_tcp_send envFlush (some devHdrOnly) = Except.ok r ∧
      r.dispatchCalls = 1 ∧ r.dispatchPayloadLen = some 0 ∧
      r.dispatchDest = some (envFlush.rimefromip devHdrOnly.d_buf.destipaddr) ∧
      r.warnings = 0 ∧ r.dev.d_len = 0 :=
  flush_zero_payload_dispatch envFlush devHdrOnly rfl rfl

/-- Claim C10: kmm_heapmember is exactly the generic membership predicate
applied to the kernel heap; being a function of its arguments it is pure
and deterministic. -/
theorem kmm_heapmember_delegates (Heap : Type) (mm : Heap → Nat → Bool)
    (g : Heap) (mem : Nat) :
    kmm_heapmember Heap mm g mem = mm g mem :=
  rfl
